import Mathlib

/-! Strobe and brightness core of the DMX LED driver firmware (`src/main.c`).

A shallow embedding of `main.c` and theorems about it.

Target and integer model.  The firmware is built for an 8051 derivative
(`mcs51/8051.h`, `stc15w.h`): `unsigned char` is 8 bit, `int`,
`unsigned short` and `unsigned int` are 16 bit, `long` is 32 bit.  Machine
integers are embedded as `Nat` / `Int`; every store into a narrower object and
every operation whose result is reduced by the machine carries its reduction
explicitly (`% 256`, `% 65536`, `wrapInt16`).

Concurrency model.  `timeMs` is written by the timer interrupt
(`strobeTimerInterrupt`) and by the main loop.  One pass of the `while(1)` body
is embedded as one atomic state transformer (`mainLoopBody`); the interrupt is
a separate transformer that runs between passes.  `dmxData` is written by the
UART driver; one pass reads one snapshot of it (`Inputs.dmxData`).
-/

namespace DmxFirmware

/-- Constants of `config.h`, which is not part of the sources at hand: the
oscillator frequency `FOSC` and the number of DMX channels `NUM_ADRESSES`. -/
structure Config where
  FOSC : Nat
  NUM_ADRESSES : Nat

/-- What one pass of the main loop reads from its collaborators: the DMX frame
`dmxData` (owned by `uart.c`) and the values returned by `readDmxAddr()` and
`readFunctionDip()` (`dip.h`). -/
structure Inputs where
  dmxData : Nat → Nat
  readDmxAddr : Nat
  readFunctionDip : Nat

/-- The ten channels that `main` reads hold bytes: `dmxData` is an array of
`unsigned char`. -/
def Inputs.bytes (inp : Inputs) : Prop := ∀ i, i < 10 → inp.dmxData i < 256

/-- The variables `main.c` reads and writes: the globals `timeMs`, `dmxAddr`,
`functionBit`, `ledBrightness`, the special function registers `TH1`, `TL1`,
`P0_3`, the static `pwrLedCnt` of `flickerPwrLed`, and the locals of `main`. -/
structure State where
  timeMs : Nat
  TH1 : Nat
  TL1 : Nat
  P0_3 : Bool
  pwrLedCnt : Nat
  dmxAddr : Nat
  functionBit : Nat
  ledBrightness : Nat → Nat
  masterBrightness : Nat
  strobeDmx : Nat
  strobeOffTime : Nat
  oldStrobe : Nat
  strobeOn : Nat

/-- Macro `STROBE_TIMER_START`, defined as `(65536-FOSC/12/400)`. -/
def STROBE_TIMER_START (cfg : Config) : Int :=
  65536 - ((cfg.FOSC / 12 / 400 : Nat) : Int)

/-- Macro `STROBE_ON_TIME_MS`, defined as `4`: the on time of a strobe flash in
2.5 ms steps. -/
def STROBE_ON_TIME_MS : Nat := 4

/-- Value of a 16-bit two's-complement `int` holding the low 16 bits of `x`. -/
def wrapInt16 (x : Int) : Int := (x + 32768) % 65536 - 32768

/-- Function `void strobeTimerInterrupt()`: `++timeMs;` on an `unsigned char`. -/
def strobeTimerInterrupt (s : State) : State :=
  { s with timeMs := (s.timeMs + 1) % 256 }

/-- Function `unsigned char calcStrobeTimeMs(unsigned char strobeDmxVal)`:
`return (51000 - strobeDmxVal * 190)/255;`.

Types of the subexpressions on the target: `strobeDmxVal` is promoted to
`int` and `190` is an `int`, so the product is a 16-bit signed `int`
(`wrapInt16`); `51000` does not fit an `int`, so it is a `long` and the
product is converted to `long` before the subtraction; the division is the
truncating division of `long`; the result is converted to `unsigned char`
(`% 256`). -/
def calcStrobeTimeMs (strobeDmxVal : Nat) : Nat :=
  (Int.tdiv (51000 - wrapInt16 ((strobeDmxVal : Int) * 190)) 255 % 256).toNat

/-- Function `void flickerPwrLed()`. -/
def flickerPwrLed (s : State) : State :=
  if s.P0_3 then
    let s1 := { s with pwrLedCnt := (s.pwrLedCnt + 1) % 256 }
    if s1.pwrLedCnt = 255 then { s1 with P0_3 := false, pwrLedCnt := 0 } else s1
  else s

/-- Value of the `int` expression `512 - NUM_ADRESSES` as stored in or compared
with the `unsigned short dmxAddr`. -/
def maxDmxAddr (cfg : Config) : Nat :=
  ((512 - (cfg.NUM_ADRESSES : Int)) % 65536).toNat

/-- Function `void readDipSwitch()`. -/
def readDipSwitch (cfg : Config) (inp : Inputs) (s : State) : State :=
  let s1 := { s with dmxAddr := inp.readDmxAddr % 65536 }
  let s2 := if s1.dmxAddr = 0 then { s1 with dmxAddr := 1 } else s1
  let s3 := if s2.dmxAddr > maxDmxAddr cfg then { s2 with dmxAddr := maxDmxAddr cfg } else s2
  { s3 with functionBit := inp.readFunctionDip % 256 }

/-- Lines 141-191 of `main`: the strobe logic of one pass of the loop. -/
def mainStrobe (cfg : Config) (dmxData : Nat → Nat) (s : State) : State :=
  let s1 := { s with strobeDmx := dmxData 1 }
  let s2 :=
    if s1.oldStrobe = 0 ∧ s1.strobeDmx ≠ 0 then
      { s1 with
        timeMs := 0
        TH1 := (STROBE_TIMER_START cfg / 256 % 256).toNat
        TL1 := (STROBE_TIMER_START cfg % 256).toNat
        strobeOn := 1 }
    else s1
  let s3 := { s2 with oldStrobe := s2.strobeDmx }
  if s3.strobeDmx ≠ 0 then
    if s3.strobeOn ≠ 0 then
      if s3.timeMs ≥ STROBE_ON_TIME_MS then
        { s3 with masterBrightness := 0, strobeOn := 0, timeMs := 0 }
      else
        { s3 with masterBrightness := dmxData 0 }
    else
      let s4 := { s3 with strobeOffTime := calcStrobeTimeMs s3.strobeDmx }
      if s4.timeMs > s4.strobeOffTime then
        { s4 with masterBrightness := dmxData 0, strobeOn := 1, timeMs := 0 }
      else
        { s4 with masterBrightness := 0 }
  else
    { s3 with masterBrightness := dmxData 0 }

/-- The expression `(dmxData[i] * masterBrightness) / 255` stored into an
`unsigned char`: the product and the quotient are `unsigned int` (16 bit),
the store keeps the low byte. -/
def scaleChannel (raw masterBrightness : Nat) : Nat :=
  (raw * masterBrightness % 65536) / 255 % 256

/-- The assignment `a[i] = v`. -/
def setAt (a : Nat → Nat) (i v : Nat) : Nat → Nat :=
  fun j => if j = i then v else a j

/-- Lines 200-207 of `main`: the unrolled scaling of the eight channels. -/
def mainScale (dmxData : Nat → Nat) (s : State) : State :=
  let s0 := { s with ledBrightness := setAt s.ledBrightness 0 (scaleChannel (dmxData 2) s.masterBrightness) }
  let s1 := { s0 with ledBrightness := setAt s0.ledBrightness 1 (scaleChannel (dmxData 3) s0.masterBrightness) }
  let s2 := { s1 with ledBrightness := setAt s1.ledBrightness 2 (scaleChannel (dmxData 4) s1.masterBrightness) }
  let s3 := { s2 with ledBrightness := setAt s2.ledBrightness 3 (scaleChannel (dmxData 5) s2.masterBrightness) }
  let s4 := { s3 with ledBrightness := setAt s3.ledBrightness 4 (scaleChannel (dmxData 6) s3.masterBrightness) }
  let s5 := { s4 with ledBrightness := setAt s4.ledBrightness 5 (scaleChannel (dmxData 7) s4.masterBrightness) }
  let s6 := { s5 with ledBrightness := setAt s5.ledBrightness 6 (scaleChannel (dmxData 8) s5.masterBrightness) }
  { s6 with ledBrightness := setAt s6.ledBrightness 7 (scaleChannel (dmxData 9) s6.masterBrightness) }

/-- One pass of the body of `while(1)` in `main` (lines 136-207). -/
def mainLoopBody (cfg : Config) (inp : Inputs) (s : State) : State :=
  mainScale inp.dmxData (mainStrobe cfg inp.dmxData (readDipSwitch cfg inp (flickerPwrLed s)))

/-- The state after `n` passes of the loop body on the same inputs, with no
timer interrupt in between. -/
def mainLoopIter (cfg : Config) (inp : Inputs) : Nat → State → State
  | 0, s => s
  | n + 1, s => mainLoopIter cfg inp n (mainLoopBody cfg inp s)

/-- A frame with master brightness `masterRaw`, strobe speed `speed` and all
LED channels at `raw`. -/
def frameOf (masterRaw speed raw : Nat) : Inputs :=
  { dmxData := fun i => if i = 0 then masterRaw else if i = 1 then speed else raw
    readDmxAddr := 1
    readFunctionDip := 0 }

/-- A state of the firmware with the given strobe variables; everything else
is as after reset. -/
def stateOf (timeMs oldStrobe strobeOn : Nat) : State :=
  { timeMs := timeMs, TH1 := 0, TL1 := 0, P0_3 := false, pwrLedCnt := 0
    dmxAddr := 1, functionBit := 0, ledBrightness := fun _ => 0
    masterBrightness := 0, strobeDmx := 0, strobeOffTime := 0
    oldStrobe := oldStrobe, strobeOn := strobeOn }

/-- Reference configuration used for concrete evaluations. -/
def cfg0 : Config := { FOSC := 24000000, NUM_ADRESSES := 10 }

/-- The function `map` of the comment in `calcStrobeTimeMs` (lines 65-68), the
documented unoptimized version:
`return (x - in_min) * (out_max - out_min) / (in_max - in_min) + out_min;`
on `long` operands, with the truncating division of C.  For byte inputs no
intermediate value leaves the range of a 32-bit `long`. -/
def map (x in_min in_max out_min out_max : Int) : Int :=
  Int.tdiv ((x - in_min) * (out_max - out_min)) (in_max - in_min) + out_min

/-- The expression `(51000 - v * 190) / 255` in exact integer arithmetic. -/
def calcStrobeTimeMsExact (v : Nat) : Int :=
  Int.tdiv (51000 - (v : Int) * 190) 255

/-- The expression `(51000 - v * 190) / 255` evaluated in unsigned 16-bit
arithmetic, where product and difference are reduced modulo 65536. -/
def calcStrobeTimeMsUnsigned16 (v : Nat) : Nat :=
  (51000 + 65536 - v * 190 % 65536) % 65536 / 255

/-- One round: one timer tick (`strobeTimerInterrupt`) followed by one pass of
the loop body. -/
def mainRound (cfg : Config) (inp : Inputs) (s : State) : State :=
  mainLoopBody cfg inp (strobeTimerInterrupt s)

/-- The state after `n` rounds on the same inputs. -/
def mainRounds (cfg : Config) (inp : Inputs) : Nat → State → State
  | 0, s => s
  | n + 1, s => mainRound cfg inp (mainRounds cfg inp n s)

/-! ## Frame lemmas: what each part of the loop body leaves alone -/

/-- The power LED logic does not touch the strobe variables. -/
theorem flickerPwrLed_strobe (s : State) :
    (flickerPwrLed s).timeMs = s.timeMs ∧ (flickerPwrLed s).oldStrobe = s.oldStrobe ∧
    (flickerPwrLed s).strobeOn = s.strobeOn := by
  unfold flickerPwrLed
  dsimp only
  split_ifs <;> exact ⟨rfl, rfl, rfl⟩

/-- Reading the DIP switch does not touch the strobe variables. -/
theorem readDipSwitch_strobe (cfg : Config) (inp : Inputs) (s : State) :
    (readDipSwitch cfg inp s).timeMs = s.timeMs ∧
    (readDipSwitch cfg inp s).oldStrobe = s.oldStrobe ∧
    (readDipSwitch cfg inp s).strobeOn = s.strobeOn := by
  unfold readDipSwitch
  dsimp only
  split_ifs <;> exact ⟨rfl, rfl, rfl⟩

/-- The timer value, the remembered speed byte, the strobe state and the
effective brightness computed by the strobe logic depend on the incoming state
only through `timeMs`, `oldStrobe` and `strobeOn`. -/
theorem mainStrobe_congr (cfg : Config) (d : Nat → Nat) (s t : State)
    (h1 : s.timeMs = t.timeMs) (h2 : s.oldStrobe = t.oldStrobe)
    (h3 : s.strobeOn = t.strobeOn) :
    (mainStrobe cfg d s).timeMs = (mainStrobe cfg d t).timeMs ∧
    (mainStrobe cfg d s).strobeOn = (mainStrobe cfg d t).strobeOn ∧
    (mainStrobe cfg d s).oldStrobe = (mainStrobe cfg d t).oldStrobe ∧
    (mainStrobe cfg d s).masterBrightness = (mainStrobe cfg d t).masterBrightness := by
  unfold mainStrobe
  dsimp only
  rw [h1, h2, h3]
  split_ifs <;> exact ⟨rfl, rfl, rfl, rfl⟩

/-- The strobe variables after one pass of the loop body are those computed by
the strobe logic from the state at the start of the pass. -/
theorem mainLoopBody_strobe (cfg : Config) (inp : Inputs) (s : State) :
    (mainLoopBody cfg inp s).timeMs = (mainStrobe cfg inp.dmxData s).timeMs ∧
    (mainLoopBody cfg inp s).strobeOn = (mainStrobe cfg inp.dmxData s).strobeOn ∧
    (mainLoopBody cfg inp s).oldStrobe = (mainStrobe cfg inp.dmxData s).oldStrobe ∧
    (mainLoopBody cfg inp s).masterBrightness =
      (mainStrobe cfg inp.dmxData s).masterBrightness := by
  obtain ⟨f1, f2, f3⟩ := flickerPwrLed_strobe s
  obtain ⟨r1, r2, r3⟩ := readDipSwitch_strobe cfg inp (flickerPwrLed s)
  exact mainStrobe_congr cfg inp.dmxData _ s (r1.trans f1) (r2.trans f2) (r3.trans f3)

/-! ## The four branches of the strobe logic -/

/-- Speed byte zero: the strobe logic passes the master channel through and
leaves timer and strobe state alone. -/
theorem mainStrobe_disabled (cfg : Config) (d : Nat → Nat) (s : State) (h0 : d 1 = 0) :
    (mainStrobe cfg d s).masterBrightness = d 0 ∧ (mainStrobe cfg d s).timeMs = s.timeMs ∧
    (mainStrobe cfg d s).strobeOn = s.strobeOn ∧ (mainStrobe cfg d s).oldStrobe = 0 := by
  simp [mainStrobe, h0]

/-- Rising edge: the speed byte was zero in the previous pass and is nonzero
now. -/
theorem mainStrobe_rising (cfg : Config) (d : Nat → Nat) (s : State)
    (hold : s.oldStrobe = 0) (h1 : d 1 ≠ 0) :
    (mainStrobe cfg d s).masterBrightness = d 0 ∧ (mainStrobe cfg d s).timeMs = 0 ∧
    (mainStrobe cfg d s).strobeOn = 1 ∧ (mainStrobe cfg d s).oldStrobe = d 1 := by
  simp [mainStrobe, hold, h1, STROBE_ON_TIME_MS]

/-- Flash lit and not yet lit long enough. -/
theorem mainStrobe_on_hold (cfg : Config) (d : Nat → Nat) (s : State)
    (hold : s.oldStrobe ≠ 0) (h1 : d 1 ≠ 0) (hon : s.strobeOn ≠ 0)
    (ht : s.timeMs < STROBE_ON_TIME_MS) :
    (mainStrobe cfg d s).masterBrightness = d 0 ∧ (mainStrobe cfg d s).timeMs = s.timeMs ∧
    (mainStrobe cfg d s).strobeOn = s.strobeOn ∧ (mainStrobe cfg d s).oldStrobe = d 1 := by
  simp [mainStrobe, hold, h1, hon, Nat.not_le.mpr ht]

/-- Flash lit long enough: it is turned off. -/
theorem mainStrobe_on_expire (cfg : Config) (d : Nat → Nat) (s : State)
    (hold : s.oldStrobe ≠ 0) (h1 : d 1 ≠ 0) (hon : s.strobeOn ≠ 0)
    (ht : STROBE_ON_TIME_MS ≤ s.timeMs) :
    (mainStrobe cfg d s).masterBrightness = 0 ∧ (mainStrobe cfg d s).timeMs = 0 ∧
    (mainStrobe cfg d s).strobeOn = 0 ∧ (mainStrobe cfg d s).oldStrobe = d 1 := by
  simp [mainStrobe, hold, h1, hon, ht]

/-- Flash dark and the off time not yet exceeded. -/
theorem mainStrobe_off_hold (cfg : Config) (d : Nat → Nat) (s : State)
    (hold : s.oldStrobe ≠ 0) (h1 : d 1 ≠ 0) (hoff : s.strobeOn = 0)
    (ht : s.timeMs ≤ calcStrobeTimeMs (d 1)) :
    (mainStrobe cfg d s).masterBrightness = 0 ∧ (mainStrobe cfg d s).timeMs = s.timeMs ∧
    (mainStrobe cfg d s).strobeOn = 0 ∧ (mainStrobe cfg d s).oldStrobe = d 1 := by
  simp [mainStrobe, hold, h1, hoff, Nat.not_lt.mpr ht]

/-- Flash dark and the off time exceeded: it is turned on. -/
theorem mainStrobe_off_expire (cfg : Config) (d : Nat → Nat) (s : State)
    (hold : s.oldStrobe ≠ 0) (h1 : d 1 ≠ 0) (hoff : s.strobeOn = 0)
    (ht : calcStrobeTimeMs (d 1) < s.timeMs) :
    (mainStrobe cfg d s).masterBrightness = d 0 ∧ (mainStrobe cfg d s).timeMs = 0 ∧
    (mainStrobe cfg d s).strobeOn = 1 ∧ (mainStrobe cfg d s).oldStrobe = d 1 := by
  simp [mainStrobe, hold, h1, hoff, ht]

/-- While the flash is lit, the strobe is active and the counter is below the
on time, passes of the loop body without a timer interrupt in between keep
the strobe state, the counter and the effective brightness. -/
theorem mainLoopIter_on_hold (cfg : Config) (inp : Inputs) (h1 : inp.dmxData 1 ≠ 0)
    (n : Nat) : ∀ s : State, s.oldStrobe ≠ 0 → s.strobeOn ≠ 0 →
      s.timeMs < STROBE_ON_TIME_MS → s.masterBrightness = inp.dmxData 0 →
      (mainLoopIter cfg inp n s).strobeOn = s.strobeOn ∧
      (mainLoopIter cfg inp n s).timeMs = s.timeMs ∧
      (mainLoopIter cfg inp n s).masterBrightness = inp.dmxData 0 := by
  induction n with
  | zero => intro s _ _ _ hm; exact ⟨rfl, rfl, hm⟩
  | succ k ih =>
    intro s hold hon ht _
    obtain ⟨bt, bo, bold, bm⟩ := mainLoopBody_strobe cfg inp s
    obtain ⟨m, t, o, od⟩ := mainStrobe_on_hold cfg inp.dmxData s hold h1 hon ht
    have e := ih (mainLoopBody cfg inp s) (by rw [bold, od]; exact h1)
      (by rw [bo, o]; exact hon) (by rw [bt, t]; exact ht) (by rw [bm, m])
    simp only [mainLoopIter]
    rw [bo, o, bt, t] at e
    exact e

/-! ## The strobe rate mapper and the scaler: arithmetic lemmas -/

set_option maxRecDepth 100000 in
/-- Up to speed byte 172 the product `strobeDmxVal * 190` fits the 16-bit
`int` and the mapper computes `(51000 - strobeDmxVal * 190) / 255` exactly. -/
theorem calcStrobeTimeMs_of_lt_173 :
    ∀ v, v < 173 → calcStrobeTimeMs v = (51000 - v * 190) / 255 := by
  decide

/-- On the speed bytes whose product fits the `int`, a larger speed byte gives
a shorter or equal off time. -/
theorem calcStrobeTimeMs_antitone_of_le_172 (a b : Nat) (hab : a ≤ b) (hb : b ≤ 172) :
    calcStrobeTimeMs b ≤ calcStrobeTimeMs a := by
  rw [calcStrobeTimeMs_of_lt_173 a (by omega), calcStrobeTimeMs_of_lt_173 b (by omega)]
  omega

/-- For two bytes the 16-bit product does not wrap and the quotient fits a
byte, so the scaler computes `raw * masterBrightness / 255` exactly. -/
theorem scaleChannel_of_bytes (raw mb : Nat) (hr : raw ≤ 255) (hm : mb ≤ 255) :
    raw * mb ≤ 65025 ∧ raw * mb % 65536 = raw * mb ∧ scaleChannel raw mb = raw * mb / 255 := by
  have hp : raw * mb ≤ 255 * 255 := Nat.mul_le_mul hr hm
  unfold scaleChannel
  generalize raw * mb = p at hp ⊢
  omega

/-- The scaling block writes entry `i` of `ledBrightness`, for `i` from 0 to 7,
with channel `i + 2` scaled by the effective brightness, and does not change
the effective brightness. -/
theorem mainScale_led (d : Nat → Nat) (s : State) (i : Nat) (hi : i < 8) :
    (mainScale d s).ledBrightness i = scaleChannel (d (i + 2)) s.masterBrightness ∧
    (mainScale d s).masterBrightness = s.masterBrightness := by
  refine ⟨?_, rfl⟩
  interval_cases i <;> rfl

/-- The effective brightness of a pass is at most the master channel. -/
theorem mainStrobe_masterBrightness_le (cfg : Config) (d : Nat → Nat) (s : State) :
    (mainStrobe cfg d s).masterBrightness ≤ d 0 := by
  unfold mainStrobe
  dsimp only
  split_ifs <;> simp

/-! ## The strobe state machine (claims C1 to C7) -/

/-- C1. OFF-phase step of the main loop: when the speed byte is nonzero (in
particular 1..255), the strobe was already active in the previous pass
(`oldStrobe ≠ 0`) and the state is OFF, one pass of the loop body compares the
tick counter with `calcStrobeTimeMs speed`: if the counter is strictly greater,
the effective brightness is the master channel, the state becomes ON and the
counter is reset to 0; otherwise (equality included) the effective brightness
is 0, the state stays OFF and the counter is unchanged. -/
theorem C1_off_phase_step (cfg : Config) (inp : Inputs) (s : State)
    (hspeed : 1 ≤ inp.dmxData 1) (hold : s.oldStrobe ≠ 0) (hoff : s.strobeOn = 0) :
    (calcStrobeTimeMs (inp.dmxData 1) < s.timeMs →
      (mainLoopBody cfg inp s).masterBrightness = inp.dmxData 0 ∧
      (mainLoopBody cfg inp s).strobeOn = 1 ∧
      (mainLoopBody cfg inp s).timeMs = 0) ∧
    (s.timeMs ≤ calcStrobeTimeMs (inp.dmxData 1) →
      (mainLoopBody cfg inp s).masterBrightness = 0 ∧
      (mainLoopBody cfg inp s).strobeOn = 0 ∧
      (mainLoopBody cfg inp s).timeMs = s.timeMs) := by
  have h1 : inp.dmxData 1 ≠ 0 := by omega
  obtain ⟨bt, bo, _, bm⟩ := mainLoopBody_strobe cfg inp s
  rw [bt, bo, bm]
  constructor
  · intro ht
    obtain ⟨m, t, o, _⟩ := mainStrobe_off_expire cfg inp.dmxData s hold h1 hoff ht
    exact ⟨m, o, t⟩
  · intro ht
    obtain ⟨m, t, o, _⟩ := mainStrobe_off_hold cfg inp.dmxData s hold h1 hoff ht
    exact ⟨m, o, t⟩

/-- C1 at speed 10 and master brightness 200, starting OFF: the threshold is
192; the brightness is 0 at ticks 0 and at ticks 192, and at ticks 193 it is
200 with the state ON and the counter reset. -/
theorem C1_off_phase_step_witness :
    calcStrobeTimeMs 10 = 192 ∧
    ((mainLoopBody cfg0 (frameOf 200 10 0) (stateOf 0 10 0)).masterBrightness = 0 ∧
      (mainLoopBody cfg0 (frameOf 200 10 0) (stateOf 0 10 0)).strobeOn = 0 ∧
      (mainLoopBody cfg0 (frameOf 200 10 0) (stateOf 0 10 0)).timeMs = 0) ∧
    ((mainLoopBody cfg0 (frameOf 200 10 0) (stateOf 192 10 0)).masterBrightness = 0 ∧
      (mainLoopBody cfg0 (frameOf 200 10 0) (stateOf 192 10 0)).strobeOn = 0 ∧
      (mainLoopBody cfg0 (frameOf 200 10 0) (stateOf 192 10 0)).timeMs = 192) ∧
    ((mainLoopBody cfg0 (frameOf 200 10 0) (stateOf 193 10 0)).masterBrightness = 200 ∧
      (mainLoopBody cfg0 (frameOf 200 10 0) (stateOf 193 10 0)).strobeOn = 1 ∧
      (mainLoopBody cfg0 (frameOf 200 10 0) (stateOf 193 10 0)).timeMs = 0) :=
  ⟨by decide,
   (C1_off_phase_step cfg0 (frameOf 200 10 0) (stateOf 0 10 0)
      (by decide) (by decide) rfl).2 (by decide),
   (C1_off_phase_step cfg0 (frameOf 200 10 0) (stateOf 192 10 0)
      (by decide) (by decide) rfl).2 (by decide),
   (C1_off_phase_step cfg0 (frameOf 200 10 0) (stateOf 193 10 0)
      (by decide) (by decide) rfl).1 (by decide)⟩

/-- C2. ON-phase expiry is inclusive: when the speed byte is nonzero and the
strobe was already active in the previous pass, a pass started in state ON
with the tick counter at least `STROBE_ON_TIME_MS` (4), in particular exactly
4, gives effective brightness 0, state OFF and the counter reset to 0; a pass
started in state OFF with the counter equal to the off threshold
`calcStrobeTimeMs speed` does not end the OFF phase. -/
theorem C2_on_phase_expiry_inclusive (cfg : Config) (inp : Inputs) (s : State)
    (hspeed : 1 ≤ inp.dmxData 1) (hold : s.oldStrobe ≠ 0) :
    STROBE_ON_TIME_MS = 4 ∧
    (s.strobeOn ≠ 0 → 4 ≤ s.timeMs →
      (mainLoopBody cfg inp s).masterBrightness = 0 ∧
      (mainLoopBody cfg inp s).strobeOn = 0 ∧
      (mainLoopBody cfg inp s).timeMs = 0) ∧
    (s.strobeOn = 0 → s.timeMs = calcStrobeTimeMs (inp.dmxData 1) →
      (mainLoopBody cfg inp s).masterBrightness = 0 ∧
      (mainLoopBody cfg inp s).strobeOn = 0 ∧
      (mainLoopBody cfg inp s).timeMs = s.timeMs) := by
  have h1 : inp.dmxData 1 ≠ 0 := by omega
  obtain ⟨bt, bo, _, bm⟩ := mainLoopBody_strobe cfg inp s
  rw [bt, bo, bm]
  refine ⟨rfl, ?_, ?_⟩
  · intro hon ht
    obtain ⟨m, t, o, _⟩ := mainStrobe_on_expire cfg inp.dmxData s hold h1 hon ht
    exact ⟨m, o, t⟩
  · intro hoff ht
    obtain ⟨m, t, o, _⟩ := mainStrobe_off_hold cfg inp.dmxData s hold h1 hoff (le_of_eq ht)
    exact ⟨m, o, t⟩

/-- C2 at speed 10 and master brightness 200: in state ON with ticks exactly 4
the flash is turned off; in state OFF with ticks exactly 192, the off
threshold, the flash stays off. -/
theorem C2_on_phase_expiry_inclusive_witness :
    ((mainLoopBody cfg0 (frameOf 200 10 0) (stateOf 4 10 1)).masterBrightness = 0 ∧
      (mainLoopBody cfg0 (frameOf 200 10 0) (stateOf 4 10 1)).strobeOn = 0 ∧
      (mainLoopBody cfg0 (frameOf 200 10 0) (stateOf 4 10 1)).timeMs = 0) ∧
    ((mainLoopBody cfg0 (frameOf 200 10 0) (stateOf 192 10 0)).masterBrightness = 0 ∧
      (mainLoopBody cfg0 (frameOf 200 10 0) (stateOf 192 10 0)).strobeOn = 0 ∧
      (mainLoopBody cfg0 (frameOf 200 10 0) (stateOf 192 10 0)).timeMs = 192) :=
  ⟨(C2_on_phase_expiry_inclusive cfg0 (frameOf 200 10 0) (stateOf 4 10 1)
      (by decide) (by decide)).2.1 (by decide) (by decide),
   (C2_on_phase_expiry_inclusive cfg0 (frameOf 200 10 0) (stateOf 192 10 0)
      (by decide) (by decide)).2.2 rfl (by decide)⟩

/-- C3. ON-phase idempotence: with a nonzero speed byte (in particular 1..255)
and the tick counter below 4, one pass of the loop body started in state ON
leaves the state ON and produces the master channel as effective brightness;
`n + 1` passes at the same ticks give the same strobe state, the same counter
and the same brightness as one pass, for every `n`. -/
theorem C3_on_phase_idempotent (cfg : Config) (inp : Inputs) (s : State) (n : Nat)
    (hspeed : 1 ≤ inp.dmxData 1) (hon : s.strobeOn ≠ 0) (ht : s.timeMs < 4) :
    (mainLoopBody cfg inp s).strobeOn ≠ 0 ∧
    (mainLoopBody cfg inp s).masterBrightness = inp.dmxData 0 ∧
    (mainLoopIter cfg inp (n + 1) s).strobeOn = (mainLoopBody cfg inp s).strobeOn ∧
    (mainLoopIter cfg inp (n + 1) s).timeMs = (mainLoopBody cfg inp s).timeMs ∧
    (mainLoopIter cfg inp (n + 1) s).masterBrightness =
      (mainLoopBody cfg inp s).masterBrightness := by
  have h1 : inp.dmxData 1 ≠ 0 := by omega
  obtain ⟨bt, bo, bold, bm⟩ := mainLoopBody_strobe cfg inp s
  have key : (mainLoopBody cfg inp s).oldStrobe ≠ 0 ∧ (mainLoopBody cfg inp s).strobeOn ≠ 0 ∧
      (mainLoopBody cfg inp s).timeMs < STROBE_ON_TIME_MS ∧
      (mainLoopBody cfg inp s).masterBrightness = inp.dmxData 0 := by
    rw [bt, bo, bold, bm]
    by_cases hold : s.oldStrobe = 0
    · obtain ⟨m, t, o, od⟩ := mainStrobe_rising cfg inp.dmxData s hold h1
      rw [m, t, o, od]
      exact ⟨h1, by decide, by decide, rfl⟩
    · obtain ⟨m, t, o, od⟩ := mainStrobe_on_hold cfg inp.dmxData s hold h1 hon ht
      rw [m, t, o, od]
      exact ⟨h1, hon, ht, rfl⟩
  obtain ⟨k1, k2, k3, k4⟩ := key
  obtain ⟨i1, i2, i3⟩ := mainLoopIter_on_hold cfg inp h1 n (mainLoopBody cfg inp s) k1 k2 k3 k4
  refine ⟨k2, k4, ?_, ?_, ?_⟩
  · simpa only [mainLoopIter] using i1
  · simpa only [mainLoopIter] using i2
  · rw [k4]; simpa only [mainLoopIter] using i3

/-- C3 at speed 10, master brightness 200, state ON, ticks 3: five passes give
what one pass gives, state ON and brightness 200. -/
theorem C3_on_phase_idempotent_witness :
    (mainLoopBody cfg0 (frameOf 200 10 0) (stateOf 3 10 1)).strobeOn ≠ 0 ∧
    (mainLoopBody cfg0 (frameOf 200 10 0) (stateOf 3 10 1)).masterBrightness = 200 ∧
    (mainLoopIter cfg0 (frameOf 200 10 0) 5 (stateOf 3 10 1)).strobeOn =
      (mainLoopBody cfg0 (frameOf 200 10 0) (stateOf 3 10 1)).strobeOn ∧
    (mainLoopIter cfg0 (frameOf 200 10 0) 5 (stateOf 3 10 1)).timeMs =
      (mainLoopBody cfg0 (frameOf 200 10 0) (stateOf 3 10 1)).timeMs ∧
    (mainLoopIter cfg0 (frameOf 200 10 0) 5 (stateOf 3 10 1)).masterBrightness =
      (mainLoopBody cfg0 (frameOf 200 10 0) (stateOf 3 10 1)).masterBrightness :=
  C3_on_phase_idempotent cfg0 (frameOf 200 10 0) (stateOf 3 10 1) 4
    (by decide) (by decide) (by decide)

/-- C4. Rising edge of strobe activation: when the previous speed byte was 0
(`oldStrobe = 0`) and the current speed byte is nonzero, then whatever the
prior strobe state and the prior tick counter, the pass resets the counter to
0, ends in state ON and produces the master channel as effective
brightness. -/
theorem C4_rising_edge (cfg : Config) (inp : Inputs) (s : State)
    (hold : s.oldStrobe = 0) (hspeed : inp.dmxData 1 ≠ 0) :
    (mainLoopBody cfg inp s).timeMs = 0 ∧
    (mainLoopBody cfg inp s).strobeOn = 1 ∧
    (mainLoopBody cfg inp s).masterBrightness = inp.dmxData 0 := by
  obtain ⟨bt, bo, _, bm⟩ := mainLoopBody_strobe cfg inp s
  obtain ⟨m, t, o, _⟩ := mainStrobe_rising cfg inp.dmxData s hold hspeed
  rw [bt, bo, bm]
  exact ⟨t, o, m⟩

/-- C4 at a state that was OFF with ticks 77: the rising edge at speed 10
resets the counter, turns the state ON and shows brightness 200. -/
theorem C4_rising_edge_witness :
    (mainLoopBody cfg0 (frameOf 200 10 0) (stateOf 77 0 0)).timeMs = 0 ∧
    (mainLoopBody cfg0 (frameOf 200 10 0) (stateOf 77 0 0)).strobeOn = 1 ∧
    (mainLoopBody cfg0 (frameOf 200 10 0) (stateOf 77 0 0)).masterBrightness = 200 :=
  C4_rising_edge cfg0 (frameOf 200 10 0) (stateOf 77 0 0) rfl (by decide)

/-- C5. Strobe disabled: in every pass with speed byte 0 the effective
brightness is the master channel `dmxData[0]`, for every tick counter, every
prior strobe state and every prior `oldStrobe`. -/
theorem C5_strobe_disabled (cfg : Config) (inp : Inputs) (s : State)
    (hspeed : inp.dmxData 1 = 0) :
    (mainLoopBody cfg inp s).masterBrightness = inp.dmxData 0 := by
  rw [(mainLoopBody_strobe cfg inp s).2.2.2]
  exact (mainStrobe_disabled cfg inp.dmxData s hspeed).1

/-- C5 at master brightness 200, ticks 250, state OFF, previous speed 9. -/
theorem C5_strobe_disabled_witness :
    (mainLoopBody cfg0 (frameOf 200 0 0) (stateOf 250 9 0)).masterBrightness = 200 :=
  C5_strobe_disabled cfg0 (frameOf 200 0 0) (stateOf 250 9 0) rfl

/-- C6. In every pass of the loop body, whatever the speed byte, the master
channel, the tick counter, the prior strobe state and the prior `oldStrobe`,
the effective master brightness is either the master channel or 0. -/
theorem C6_brightness_full_or_zero (cfg : Config) (inp : Inputs) (s : State) :
    (mainLoopBody cfg inp s).masterBrightness = inp.dmxData 0 ∨
    (mainLoopBody cfg inp s).masterBrightness = 0 := by
  rw [(mainLoopBody_strobe cfg inp s).2.2.2]
  by_cases h1 : inp.dmxData 1 = 0
  · exact Or.inl (mainStrobe_disabled cfg inp.dmxData s h1).1
  by_cases hold : s.oldStrobe = 0
  · exact Or.inl (mainStrobe_rising cfg inp.dmxData s hold h1).1
  by_cases hon : s.strobeOn = 0
  · by_cases ht : s.timeMs ≤ calcStrobeTimeMs (inp.dmxData 1)
    · exact Or.inr (mainStrobe_off_hold cfg inp.dmxData s hold h1 hon ht).1
    · exact Or.inl (mainStrobe_off_expire cfg inp.dmxData s hold h1 hon (Nat.lt_of_not_le ht)).1
  · by_cases ht : s.timeMs < STROBE_ON_TIME_MS
    · exact Or.inl (mainStrobe_on_hold cfg inp.dmxData s hold h1 hon ht).1
    · exact Or.inr (mainStrobe_on_expire cfg inp.dmxData s hold h1 hon (Nat.le_of_not_lt ht)).1

/-- C7. Tick reset on every state transition: if a pass of the loop body turns
the strobe state from ON to OFF or from OFF to ON, the tick counter is 0 after
the pass; if the state did not change and the pass was not a rising edge of
strobe activation, the pass leaves the tick counter unchanged. -/
theorem C7_tick_reset_on_transition (cfg : Config) (inp : Inputs) (s : State) :
    ((s.strobeOn ≠ 0 ∧ (mainLoopBody cfg inp s).strobeOn = 0) ∨
      (s.strobeOn = 0 ∧ (mainLoopBody cfg inp s).strobeOn ≠ 0) →
      (mainLoopBody cfg inp s).timeMs = 0) ∧
    ((s.strobeOn = 0 ↔ (mainLoopBody cfg inp s).strobeOn = 0) →
      ¬ (s.oldStrobe = 0 ∧ inp.dmxData 1 ≠ 0) →
      (mainLoopBody cfg inp s).timeMs = s.timeMs) := by
  obtain ⟨bt, bo, _, _⟩ := mainLoopBody_strobe cfg inp s
  rw [bt, bo]
  by_cases h1 : inp.dmxData 1 = 0
  · obtain ⟨_, t, o, _⟩ := mainStrobe_disabled cfg inp.dmxData s h1
    rw [t, o]
    exact ⟨fun h => by cases h <;> simp_all, fun _ _ => rfl⟩
  by_cases hold : s.oldStrobe = 0
  · obtain ⟨_, t, o, _⟩ := mainStrobe_rising cfg inp.dmxData s hold h1
    rw [t, o]
    exact ⟨fun _ => rfl, fun _ h => absurd ⟨hold, h1⟩ h⟩
  by_cases hon : s.strobeOn = 0
  · by_cases ht : s.timeMs ≤ calcStrobeTimeMs (inp.dmxData 1)
    · obtain ⟨_, t, o, _⟩ := mainStrobe_off_hold cfg inp.dmxData s hold h1 hon ht
      rw [t, o]
      exact ⟨fun h => by cases h <;> simp_all, fun _ _ => rfl⟩
    · obtain ⟨_, t, o, _⟩ :=
        mainStrobe_off_expire cfg inp.dmxData s hold h1 hon (Nat.lt_of_not_le ht)
      rw [t, o]
      exact ⟨fun _ => rfl, fun h _ => by simp_all⟩
  · by_cases ht : s.timeMs < STROBE_ON_TIME_MS
    · obtain ⟨_, t, o, _⟩ := mainStrobe_on_hold cfg inp.dmxData s hold h1 hon ht
      rw [t, o]
      exact ⟨fun h => by cases h <;> simp_all, fun _ _ => rfl⟩
    · obtain ⟨_, t, o, _⟩ :=
        mainStrobe_on_expire cfg inp.dmxData s hold h1 hon (Nat.le_of_not_lt ht)
      rw [t, o]
      exact ⟨fun _ => rfl, fun h _ => by simp_all⟩

/-- C7 on three passes at speed 10: ON with ticks 4 turns OFF and the counter
is 0; OFF with ticks 193 turns ON and the counter is 0; OFF with ticks 100
stays OFF and the counter stays 100. -/
theorem C7_tick_reset_on_transition_witness :
    (mainLoopBody cfg0 (frameOf 200 10 0) (stateOf 4 10 1)).timeMs = 0 ∧
    (mainLoopBody cfg0 (frameOf 200 10 0) (stateOf 193 10 0)).timeMs = 0 ∧
    (mainLoopBody cfg0 (frameOf 200 10 0) (stateOf 100 10 0)).timeMs = 100 :=
  ⟨(C7_tick_reset_on_transition cfg0 (frameOf 200 10 0) (stateOf 4 10 1)).1
      (Or.inl ⟨by decide, by decide⟩),
   (C7_tick_reset_on_transition cfg0 (frameOf 200 10 0) (stateOf 193 10 0)).1
      (Or.inr ⟨by decide, by decide⟩),
   (C7_tick_reset_on_transition cfg0 (frameOf 200 10 0) (stateOf 100 10 0)).2
      (by decide) (by decide)⟩

/-! ## The strobe rate mapper (claims C8, C9) and the scaler (claim C10) -/

/-- C8, as stated, fails: `calcStrobeTimeMs 1` is 199, not 200, and
`calcStrobeTimeMs 255` is 11, not 10. -/
theorem C8_boundary_values_counterexample :
    ¬ (calcStrobeTimeMs 1 = 200 ∧ calcStrobeTimeMs 255 = 10) ∧
    calcStrobeTimeMs 1 ≠ 200 ∧ calcStrobeTimeMs 255 ≠ 10 := by
  decide

/-- C8, amended. Lower boundary of the strobe rate mapper: the value 200 is
attained at speed byte 0, and `calcStrobeTimeMs 1` is 199, the truncation of
`(51000 - 190) / 255 = 50810 / 255`. -/
theorem C8_boundary_values_amended :
    calcStrobeTimeMs 0 = 200 ∧ calcStrobeTimeMs 1 = 199 ∧
    (51000 - 1 * 190) / 255 = 199 := by
  decide

/-- C9 on the speed bytes 172 and 173. The product `173 * 190 = 32870` exceeds
the largest 16-bit `int`, 32767, and is held as `-32666`; the mapper returns
71 at 172 and 72 at 173, so it is not non-increasing on 1..255. -/
theorem C9_mapper_not_antitone :
    wrapInt16 (173 * 190) = -32666 ∧
    calcStrobeTimeMs 172 = 71 ∧ calcStrobeTimeMs 173 = 72 ∧
    ¬ (∀ a b : Nat, 1 ≤ a → a ≤ b → b ≤ 255 → calcStrobeTimeMs b ≤ calcStrobeTimeMs a) := by
  refine ⟨by decide, by decide, by decide, ?_⟩
  intro h
  exact absurd (h 172 173 (by decide) (by decide) (by decide)) (by decide)

/-- C10. Brightness scaler: when the frame holds bytes, after one pass of the
loop body the effective brightness `b` is at most 255 and, for each `i` from 0
to 7, the product `dmxData[i+2] * b` is at most 65025, is unchanged by
reduction modulo 2^16, and `ledBrightness[i]` is `dmxData[i+2] * b / 255`
(truncating).  Every one of the eight entries is overwritten: the entry
depends only on channel `i + 2` and on `b`, not on the previous contents of
`ledBrightness` nor on other channels, so any other pass with the same
channel value and the same effective brightness yields the same entry. -/
theorem C10_scaler_formula (cfg : Config) (inp : Inputs) (s : State) (i : Nat)
    (hb : inp.bytes) (hi : i < 8) :
    (mainLoopBody cfg inp s).masterBrightness ≤ 255 ∧
    inp.dmxData (i + 2) * (mainLoopBody cfg inp s).masterBrightness ≤ 65025 ∧
    inp.dmxData (i + 2) * (mainLoopBody cfg inp s).masterBrightness % 65536 =
      inp.dmxData (i + 2) * (mainLoopBody cfg inp s).masterBrightness ∧
    (mainLoopBody cfg inp s).ledBrightness i =
      inp.dmxData (i + 2) * (mainLoopBody cfg inp s).masterBrightness / 255 ∧
    (∀ (cfg2 : Config) (inp2 : Inputs) (s2 : State), inp2.bytes →
      inp2.dmxData (i + 2) = inp.dmxData (i + 2) →
      (mainLoopBody cfg2 inp2 s2).masterBrightness = (mainLoopBody cfg inp s).masterBrightness →
      (mainLoopBody cfg2 inp2 s2).ledBrightness i = (mainLoopBody cfg inp s).ledBrightness i) := by
  have mbLe : ∀ (c : Config) (x : Inputs) (u : State), x.bytes →
      (mainLoopBody c x u).masterBrightness ≤ 255 := by
    intro c x u hx
    rw [(mainLoopBody_strobe c x u).2.2.2]
    have h0 := hx 0 (by decide)
    have := mainStrobe_masterBrightness_le c x.dmxData u
    omega
  have led : ∀ (c : Config) (x : Inputs) (u : State), x.bytes →
      (mainLoopBody c x u).ledBrightness i =
        x.dmxData (i + 2) * (mainLoopBody c x u).masterBrightness / 255 := by
    intro c x u hx
    have hr := hx (i + 2) (by omega)
    obtain ⟨l, m⟩ := mainScale_led x.dmxData
      (mainStrobe c x.dmxData (readDipSwitch c x (flickerPwrLed u))) i hi
    have e := (scaleChannel_of_bytes (x.dmxData (i + 2)) (mainLoopBody c x u).masterBrightness
      (by omega) (mbLe c x u hx)).2.2
    unfold mainLoopBody at e ⊢
    rw [l, ← m]
    exact e
  have hr := hb (i + 2) (by omega)
  obtain ⟨p1, p2, _⟩ := scaleChannel_of_bytes (inp.dmxData (i + 2))
    (mainLoopBody cfg inp s).masterBrightness (by omega) (mbLe cfg inp s hb)
  refine ⟨mbLe cfg inp s hb, p1, p2, led cfg inp s hb, ?_⟩
  intro cfg2 inp2 s2 hb2 hd hm
  rw [led cfg2 inp2 s2 hb2, led cfg inp s hb, hd, hm]

/-- C10 at raw value 100 on every LED channel and master brightness 128 with
the strobe disabled: the effective brightness is 128 and entry 0 of
`ledBrightness` is 50, whatever it held before. -/
theorem C10_scaler_formula_witness :
    (frameOf 128 0 100).bytes ∧
    (mainLoopBody cfg0 (frameOf 128 0 100) (stateOf 0 0 0)).masterBrightness = 128 ∧
    (mainLoopBody cfg0 (frameOf 128 0 100) (stateOf 0 0 0)).ledBrightness 0 = 50 :=
  ⟨by unfold Inputs.bytes; decide, by decide,
   (C10_scaler_formula cfg0 (frameOf 128 0 100) (stateOf 0 0 0) 0
      (by unfold Inputs.bytes; decide) (by decide)).2.2.2.1⟩

/-! ## Further lemmas on the mapper and the scaler -/

set_option maxRecDepth 100000 in
/-- For every byte the mapper returns a value from 11 to 200. -/
theorem calcStrobeTimeMs_range : ∀ v, v < 256 →
    11 ≤ calcStrobeTimeMs v ∧ calcStrobeTimeMs v ≤ 200 := by
  decide

/-- After one pass of the loop body, entry `i` of `ledBrightness`, for `i` from
0 to 7, is channel `i + 2` scaled by the effective brightness of that pass. -/
theorem mainLoopBody_led (cfg : Config) (inp : Inputs) (s : State) (i : Nat) (hi : i < 8) :
    (mainLoopBody cfg inp s).ledBrightness i =
      scaleChannel (inp.dmxData (i + 2)) (mainLoopBody cfg inp s).masterBrightness := by
  obtain ⟨l, m⟩ := mainScale_led inp.dmxData
    (mainStrobe cfg inp.dmxData (readDipSwitch cfg inp (flickerPwrLed s))) i hi
  unfold mainLoopBody
  rw [l, m]

/-- When the frame holds bytes, so does the effective brightness. -/
theorem mainLoopBody_masterBrightness_le (cfg : Config) (inp : Inputs) (s : State)
    (hb : inp.bytes) : (mainLoopBody cfg inp s).masterBrightness ≤ 255 := by
  rw [(mainLoopBody_strobe cfg inp s).2.2.2]
  have h0 := hb 0 (by decide)
  have := mainStrobe_masterBrightness_le cfg inp.dmxData s
  omega

/-! ## The scaler (claims C11, C12) -/

/-- C11. The scaler is brightness-dominant and monotone: for bytes `raw1`,
`b1` the scaled value is `raw1 * b1 / 255` (truncating), is at most `raw1` and
fits a byte; for `raw1 ≤ raw2` and `b1 ≤ b2`, all bytes, the scaled value of
`(raw1, b1)` is at most that of `(raw2, b2)`; and after a pass of the loop body
on a frame of bytes no entry of `ledBrightness` exceeds its raw channel. -/
theorem C11_scaler_dominant_monotone (raw1 raw2 b1 b2 : Nat)
    (hr : raw1 ≤ raw2) (hr2 : raw2 ≤ 255) (hb : b1 ≤ b2) (hb2 : b2 ≤ 255) :
    scaleChannel raw1 b1 = raw1 * b1 / 255 ∧
    scaleChannel raw1 b1 ≤ raw1 ∧
    scaleChannel raw1 b1 ≤ 255 ∧
    scaleChannel raw1 b1 ≤ scaleChannel raw2 b2 ∧
    (∀ (cfg : Config) (inp : Inputs) (s : State) (i : Nat), inp.bytes → i < 8 →
      (mainLoopBody cfg inp s).ledBrightness i ≤ inp.dmxData (i + 2)) := by
  have dom : ∀ r b : Nat, r ≤ 255 → b ≤ 255 →
      scaleChannel r b = r * b / 255 ∧ r * b / 255 ≤ r := by
    intro r b h1 h2
    refine ⟨(scaleChannel_of_bytes r b h1 h2).2.2, ?_⟩
    apply Nat.div_le_of_le_mul
    rw [Nat.mul_comm 255 r]
    exact Nat.mul_le_mul_left r h2
  obtain ⟨e1, d1⟩ := dom raw1 b1 (by omega) (by omega)
  obtain ⟨e2, _⟩ := dom raw2 b2 hr2 hb2
  refine ⟨e1, by omega, by omega, ?_, ?_⟩
  · rw [e1, e2]
    exact Nat.div_le_div_right (Nat.mul_le_mul hr hb)
  · intro cfg inp s i hbytes hi
    have hraw := hbytes (i + 2) (by omega)
    obtain ⟨e, d⟩ := dom (inp.dmxData (i + 2)) (mainLoopBody cfg inp s).masterBrightness
      (by omega) (mainLoopBody_masterBrightness_le cfg inp s hbytes)
    rw [mainLoopBody_led cfg inp s i hi, e]
    exact d

/-- C11 at `(100, 128)` and `(200, 255)`: the scaled values are 50 and 200. -/
theorem C11_scaler_dominant_monotone_witness :
    scaleChannel 100 128 = 50 ∧ scaleChannel 100 128 ≤ 100 ∧
    scaleChannel 200 255 = 200 ∧ scaleChannel 100 128 ≤ scaleChannel 200 255 :=
  ⟨(C11_scaler_dominant_monotone 100 200 128 255
      (by decide) (by decide) (by decide) (by decide)).1,
   (C11_scaler_dominant_monotone 100 200 128 255
      (by decide) (by decide) (by decide) (by decide)).2.1,
   by decide,
   (C11_scaler_dominant_monotone 100 200 128 255
      (by decide) (by decide) (by decide) (by decide)).2.2.2.1⟩

/-- C12. Scaler endpoints: for every byte `raw`, scaling by full brightness 255
gives `raw` and scaling by brightness 0 gives 0; so in a pass of the loop body
whose effective brightness is 0 (a dark strobe phase) every one of the eight
LED outputs is 0. -/
theorem C12_scaler_endpoints (raw : Nat) (hr : raw ≤ 255) :
    scaleChannel raw 255 = raw ∧ scaleChannel raw 0 = 0 ∧
    (∀ (cfg : Config) (inp : Inputs) (s : State) (i : Nat), i < 8 →
      (mainLoopBody cfg inp s).masterBrightness = 0 →
      (mainLoopBody cfg inp s).ledBrightness i = 0) := by
  refine ⟨?_, ?_, ?_⟩
  · rw [(scaleChannel_of_bytes raw 255 hr (Nat.le_refl 255)).2.2]
    exact Nat.mul_div_cancel raw (by decide)
  · simp [scaleChannel]
  · intro cfg inp s i hi h0
    rw [mainLoopBody_led cfg inp s i hi, h0]
    simp [scaleChannel]

/-- C12 at raw 255 with brightness 255 and at raw 128 with brightness 0. -/
theorem C12_scaler_endpoints_witness :
    scaleChannel 255 255 = 255 ∧ scaleChannel 128 0 = 0 :=
  ⟨(C12_scaler_endpoints 255 (by decide)).1, (C12_scaler_endpoints 128 (by decide)).2.1⟩

/-! ## The mapper against its documentation (claims C13, C14, C15) -/

set_option maxRecDepth 100000 in
/-- Up to speed byte 172 the mapper is one below the interpolation of [0,255]
onto [200,10] computed by `map`, and equal to it at the multiples of 51. -/
theorem calcStrobeTimeMs_map_of_lt_173 : ∀ x, x < 173 →
    (calcStrobeTimeMs x : Int) = map x 0 255 200 10 - (if 51 ∣ x then 0 else 1) := by
  decide

set_option maxRecDepth 100000 in
/-- Up to speed byte 172 the mapper agrees with exact integer arithmetic. -/
theorem calcStrobeTimeMs_exact_of_lt_173 : ∀ x, x < 173 →
    (calcStrobeTimeMs x : Int) = calcStrobeTimeMsExact x := by
  decide

set_option maxRecDepth 100000 in
/-- From speed byte 173 on the mapper differs from exact integer arithmetic. -/
theorem calcStrobeTimeMs_ne_exact_of_ge_173 : ∀ x, x < 256 → 173 ≤ x →
    (calcStrobeTimeMs x : Int) ≠ calcStrobeTimeMsExact x := by
  decide

set_option maxRecDepth 100000 in
/-- On bytes, unsigned 16-bit evaluation of the formula agrees with exact
integer arithmetic. -/
theorem calcStrobeTimeMsUnsigned16_eq_exact : ∀ x, x < 256 →
    (calcStrobeTimeMsUnsigned16 x : Int) = calcStrobeTimeMsExact x := by
  decide

set_option maxRecDepth 100000 in
/-- C13, as stated, fails: at 0 the mapper gives 200 and `map(0, 0, 255, 255,
25)` is 255; at 255 the values are 11 and 25; the two agree at no byte. -/
theorem C13_mapper_equals_map_counterexample :
    (calcStrobeTimeMs 0 : Int) = 200 ∧ map 0 0 255 255 25 = 255 ∧
    (calcStrobeTimeMs 255 : Int) = 11 ∧ map 255 0 255 255 25 = 25 ∧
    (∀ x : Nat, x < 256 → (calcStrobeTimeMs x : Int) ≠ map x 0 255 255 25) := by
  decide

/-- C13, amended. For every speed byte `x` from 0 to 172 the mapper equals
`(51000 - x * 190) / 255` in exact arithmetic, which is `map(x, 0, 255, 200,
10)` when `x` is a multiple of 51 and `map(x, 0, 255, 200, 10) - 1` otherwise:
the mapper follows, within one tick, the interpolation of the input range
[0,255] onto the output range [200,10]. -/
theorem C13_mapper_equals_map_amended (x : Nat) (hx : x ≤ 172) :
    (calcStrobeTimeMs x : Int) = calcStrobeTimeMsExact x ∧
    (calcStrobeTimeMs x : Int) = map x 0 255 200 10 - (if 51 ∣ x then 0 else 1) :=
  ⟨calcStrobeTimeMs_exact_of_lt_173 x (by omega), calcStrobeTimeMs_map_of_lt_173 x (by omega)⟩

/-- C13, amended, at the speed bytes 51 (a multiple of 51) and 1. -/
theorem C13_mapper_equals_map_amended_witness :
    ((calcStrobeTimeMs 51 : Int) = map 51 0 255 200 10 - 0 ∧ map 51 0 255 200 10 = 162) ∧
    ((calcStrobeTimeMs 1 : Int) = map 1 0 255 200 10 - 1 ∧ map 1 0 255 200 10 = 200) :=
  ⟨⟨(C13_mapper_equals_map_amended 51 (by decide)).2, by decide⟩,
   ⟨(C13_mapper_equals_map_amended 1 (by decide)).2, by decide⟩⟩

/-- C14 at speed byte 255 and on all bytes. The mapper returns 11 at 255, where
exact arithmetic gives 10, and it returns 10 at no byte; the other parts of
the range statement hold: 200 at 0, every value from 10 to 200 and below 255,
and some 8-bit tick value above it. -/
theorem C14_mapper_range :
    calcStrobeTimeMs 255 = 11 ∧ calcStrobeTimeMsExact 255 = 10 ∧
    (∀ v, v < 256 → calcStrobeTimeMs v ≠ 10) ∧
    calcStrobeTimeMs 0 = 200 ∧
    (∀ v, v < 256 → 10 ≤ calcStrobeTimeMs v ∧ calcStrobeTimeMs v ≤ 200 ∧
      calcStrobeTimeMs v < 255 ∧ ∃ t, t < 256 ∧ calcStrobeTimeMs v < t) := by
  refine ⟨by decide, by decide, ?_, by decide, ?_⟩
  · intro v hv
    have := (calcStrobeTimeMs_range v hv).1
    omega
  · intro v hv
    obtain ⟨lo, hi⟩ := calcStrobeTimeMs_range v hv
    exact ⟨by omega, hi, by omega, 255, by decide, by omega⟩

/-- C15 at speed byte 173 and on all bytes. In unsigned 16-bit arithmetic the
product and the difference would stay in range and the result would be exact;
the code holds the product in a 16-bit signed `int`: at 173 the product is
`-32666`, the difference is `83666`, above 65535, and the result is 72 where
exact arithmetic gives 71; the code is exact up to 172 and at no byte from
173 on. -/
theorem C15_mapper_intermediates :
    (∀ v, v < 256 → v * 190 ≤ 48450 ∧ v * 190 ≤ 51000 ∧
      (calcStrobeTimeMsUnsigned16 v : Int) = calcStrobeTimeMsExact v) ∧
    wrapInt16 (173 * 190) = -32666 ∧ 51000 - wrapInt16 (173 * 190) = 83666 ∧
    calcStrobeTimeMs 173 = 72 ∧ calcStrobeTimeMsExact 173 = 71 ∧
    (∀ v, v < 173 → (calcStrobeTimeMs v : Int) = calcStrobeTimeMsExact v) ∧
    (∀ v, v < 256 → 173 ≤ v → (calcStrobeTimeMs v : Int) ≠ calcStrobeTimeMsExact v) := by
  refine ⟨?_, by decide, by decide, by decide, by decide,
    calcStrobeTimeMs_exact_of_lt_173, calcStrobeTimeMs_ne_exact_of_ge_173⟩
  intro v hv
  exact ⟨by omega, by omega, calcStrobeTimeMsUnsigned16_eq_exact v hv⟩

/-! ## The strobe state while disabled and after a pass (claims C16, C18, C19) -/

/-- Timer ticks do not touch the remembered speed byte. -/
theorem strobeTimerInterrupt_iterate_oldStrobe (k : Nat) (s : State) :
    (strobeTimerInterrupt^[k] s).oldStrobe = s.oldStrobe := by
  induction k with
  | zero => rfl
  | succ n ih => rw [Function.iterate_succ_apply']; exact ih

/-- C16, as stated, fails: from the state at program start (strobe state OFF)
a pass with speed byte 0 ends with the strobe state OFF. -/
theorem C16_disabled_snapshot_counterexample :
    (frameOf 200 0 0).dmxData 1 = 0 ∧ (stateOf 0 0 0).strobeOn = 0 ∧
    (mainLoopBody cfg0 (frameOf 200 0 0) (stateOf 0 0 0)).strobeOn = 0 := by
  decide

/-- C16, amended. After every pass of the loop body with speed byte 0 the
carried strobe state is the one before the pass: ON if it was ON, OFF if it
was OFF. -/
theorem C16_disabled_snapshot_amended (cfg : Config) (inp : Inputs) (s : State)
    (hspeed : inp.dmxData 1 = 0) :
    (mainLoopBody cfg inp s).strobeOn = s.strobeOn := by
  rw [(mainLoopBody_strobe cfg inp s).2.1]
  exact (mainStrobe_disabled cfg inp.dmxData s hspeed).2.2.1

/-- C16, amended, on a state that is ON and on a state that is OFF. -/
theorem C16_disabled_snapshot_amended_witness :
    (mainLoopBody cfg0 (frameOf 200 0 0) (stateOf 7 0 1)).strobeOn = 1 ∧
    (mainLoopBody cfg0 (frameOf 200 0 0) (stateOf 7 0 0)).strobeOn = 0 :=
  ⟨C16_disabled_snapshot_amended cfg0 (frameOf 200 0 0) (stateOf 7 0 1) rfl,
   C16_disabled_snapshot_amended cfg0 (frameOf 200 0 0) (stateOf 7 0 0) rfl⟩

/-- C18. State and output agree after every strobing pass: with a nonzero
speed byte, whatever the tick counter, the prior state, the prior `oldStrobe`
and the master channel, if the strobe state after the pass is ON the
effective brightness of the pass is the master channel, and if it is OFF the
effective brightness is 0. -/
theorem C18_state_matches_output (cfg : Config) (inp : Inputs) (s : State)
    (hspeed : inp.dmxData 1 ≠ 0) :
    ((mainLoopBody cfg inp s).strobeOn ≠ 0 →
      (mainLoopBody cfg inp s).masterBrightness = inp.dmxData 0) ∧
    ((mainLoopBody cfg inp s).strobeOn = 0 →
      (mainLoopBody cfg inp s).masterBrightness = 0) := by
  obtain ⟨_, bo, _, bm⟩ := mainLoopBody_strobe cfg inp s
  rw [bo, bm]
  by_cases hold : s.oldStrobe = 0
  · obtain ⟨m, _, o, _⟩ := mainStrobe_rising cfg inp.dmxData s hold hspeed
    rw [m, o]
    exact ⟨fun _ => rfl, fun h => absurd h (by decide)⟩
  by_cases hon : s.strobeOn = 0
  · by_cases ht : s.timeMs ≤ calcStrobeTimeMs (inp.dmxData 1)
    · obtain ⟨m, _, o, _⟩ := mainStrobe_off_hold cfg inp.dmxData s hold hspeed hon ht
      rw [m, o]
      exact ⟨fun h => absurd rfl h, fun _ => rfl⟩
    · obtain ⟨m, _, o, _⟩ :=
        mainStrobe_off_expire cfg inp.dmxData s hold hspeed hon (Nat.lt_of_not_le ht)
      rw [m, o]
      exact ⟨fun _ => rfl, fun h => absurd h (by decide)⟩
  · by_cases ht : s.timeMs < STROBE_ON_TIME_MS
    · obtain ⟨m, _, o, _⟩ := mainStrobe_on_hold cfg inp.dmxData s hold hspeed hon ht
      rw [m, o]
      exact ⟨fun _ => rfl, fun h => absurd h hon⟩
    · obtain ⟨m, _, o, _⟩ :=
        mainStrobe_on_expire cfg inp.dmxData s hold hspeed hon (Nat.le_of_not_lt ht)
      rw [m, o]
      exact ⟨fun h => absurd rfl h, fun _ => rfl⟩

/-- C18 at speed 10 and master 200: a pass that ends ON (from OFF at ticks
193) shows 200, a pass that ends OFF (from ON at ticks 4) shows 0. -/
theorem C18_state_matches_output_witness :
    (mainLoopBody cfg0 (frameOf 200 10 0) (stateOf 193 10 0)).masterBrightness = 200 ∧
    (mainLoopBody cfg0 (frameOf 200 10 0) (stateOf 4 10 1)).masterBrightness = 0 :=
  ⟨(C18_state_matches_output cfg0 (frameOf 200 10 0) (stateOf 193 10 0) (by decide)).1
      (by decide),
   (C18_state_matches_output cfg0 (frameOf 200 10 0) (stateOf 4 10 1) (by decide)).2
      (by decide)⟩

/-- C19. Frame while disabled: a pass of the loop body with speed byte 0 leaves
`strobeOn` and `timeMs` as they were and sets `oldStrobe` to 0; hence the next
pass with a nonzero speed byte, after any number `k` of timer ticks, is a
rising edge: it resets the counter, ends ON and shows the master channel. -/
theorem C19_frame_while_disabled (cfg : Config) (inp : Inputs) (s : State)
    (hspeed : inp.dmxData 1 = 0) :
    (mainLoopBody cfg inp s).strobeOn = s.strobeOn ∧
    (mainLoopBody cfg inp s).timeMs = s.timeMs ∧
    (mainLoopBody cfg inp s).oldStrobe = 0 ∧
    (∀ (inp2 : Inputs) (k : Nat), inp2.dmxData 1 ≠ 0 →
      (mainLoopBody cfg inp2 (strobeTimerInterrupt^[k] (mainLoopBody cfg inp s))).timeMs = 0 ∧
      (mainLoopBody cfg inp2 (strobeTimerInterrupt^[k] (mainLoopBody cfg inp s))).strobeOn = 1 ∧
      (mainLoopBody cfg inp2
        (strobeTimerInterrupt^[k] (mainLoopBody cfg inp s))).masterBrightness =
          inp2.dmxData 0) := by
  obtain ⟨bt, bo, bold, _⟩ := mainLoopBody_strobe cfg inp s
  obtain ⟨_, t, o, od⟩ := mainStrobe_disabled cfg inp.dmxData s hspeed
  have hold : (mainLoopBody cfg inp s).oldStrobe = 0 := by rw [bold, od]
  refine ⟨by rw [bo, o], by rw [bt, t], hold, ?_⟩
  intro inp2 k h2
  have hk : (strobeTimerInterrupt^[k] (mainLoopBody cfg inp s)).oldStrobe = 0 := by
    rw [strobeTimerInterrupt_iterate_oldStrobe, hold]
  obtain ⟨ct, co, _, cm⟩ := mainLoopBody_strobe cfg inp2
    (strobeTimerInterrupt^[k] (mainLoopBody cfg inp s))
  obtain ⟨m, t2, o2, _⟩ := mainStrobe_rising cfg inp2.dmxData _ hk h2
  rw [ct, co, cm]
  exact ⟨t2, o2, m⟩

/-- C19 on a state that is OFF with ticks 77 and previous speed 9: the pass
with speed 0 keeps OFF and 77 and clears `oldStrobe`; the next pass, three
ticks later at speed 10, ends ON with the counter at 0. -/
theorem C19_frame_while_disabled_witness :
    (mainLoopBody cfg0 (frameOf 200 0 0) (stateOf 77 9 0)).strobeOn = 0 ∧
    (mainLoopBody cfg0 (frameOf 200 0 0) (stateOf 77 9 0)).timeMs = 77 ∧
    (mainLoopBody cfg0 (frameOf 200 0 0) (stateOf 77 9 0)).oldStrobe = 0 ∧
    (mainLoopBody cfg0 (frameOf 200 10 0) (strobeTimerInterrupt^[3]
      (mainLoopBody cfg0 (frameOf 200 0 0) (stateOf 77 9 0)))).strobeOn = 1 :=
  ⟨(C19_frame_while_disabled cfg0 (frameOf 200 0 0) (stateOf 77 9 0) rfl).1,
   (C19_frame_while_disabled cfg0 (frameOf 200 0 0) (stateOf 77 9 0) rfl).2.1,
   (C19_frame_while_disabled cfg0 (frameOf 200 0 0) (stateOf 77 9 0) rfl).2.2.1,
   ((C19_frame_while_disabled cfg0 (frameOf 200 0 0) (stateOf 77 9 0) rfl).2.2.2
      (frameOf 200 10 0) 3 (by decide)).2.1⟩

/-! ## The DMX start address (claim C20) -/

/-- When `NUM_ADRESSES` is at most 512, the `int` value `512 - NUM_ADRESSES` is
not negative and is stored unchanged in an `unsigned short`. -/
theorem maxDmxAddr_of_le (cfg : Config) (h : cfg.NUM_ADRESSES ≤ 512) :
    maxDmxAddr cfg = 512 - cfg.NUM_ADRESSES := by
  unfold maxDmxAddr
  omega

/-- The address stored by `readDipSwitch`, as a function of the value read. -/
theorem readDipSwitch_dmxAddr (cfg : Config) (inp : Inputs) (s : State) :
    (readDipSwitch cfg inp s).dmxAddr =
      if (if inp.readDmxAddr % 65536 = 0 then 1 else inp.readDmxAddr % 65536) > maxDmxAddr cfg
      then maxDmxAddr cfg
      else (if inp.readDmxAddr % 65536 = 0 then 1 else inp.readDmxAddr % 65536) := by
  unfold readDipSwitch
  dsimp only
  split_ifs <;> rfl

/-- C20. DMX start address clamp: for `NUM_ADRESSES` from 1 to 511 and every
16-bit value `a` returned by `readDmxAddr`, after `readDipSwitch` the stored
`dmxAddr` is at least 1 and at most `512 - NUM_ADRESSES`; it is `a` when `a` is
in that range, 1 when `a` is 0, and `512 - NUM_ADRESSES` when `a` is larger. -/
theorem C20_dmx_address_clamp (cfg : Config) (inp : Inputs) (s : State)
    (hN1 : 1 ≤ cfg.NUM_ADRESSES) (hN2 : cfg.NUM_ADRESSES ≤ 511)
    (ha : inp.readDmxAddr < 65536) :
    1 ≤ (readDipSwitch cfg inp s).dmxAddr ∧
    (readDipSwitch cfg inp s).dmxAddr ≤ 512 - cfg.NUM_ADRESSES ∧
    (1 ≤ inp.readDmxAddr → inp.readDmxAddr ≤ 512 - cfg.NUM_ADRESSES →
      (readDipSwitch cfg inp s).dmxAddr = inp.readDmxAddr) ∧
    (inp.readDmxAddr = 0 → (readDipSwitch cfg inp s).dmxAddr = 1) ∧
    (512 - cfg.NUM_ADRESSES < inp.readDmxAddr →
      (readDipSwitch cfg inp s).dmxAddr = 512 - cfg.NUM_ADRESSES) := by
  rw [readDipSwitch_dmxAddr, maxDmxAddr_of_le cfg (by omega), Nat.mod_eq_of_lt ha]
  split_ifs <;> omega

/-- C20 with ten channels (largest address 502) at the switch values 0, 17
and 511. -/
theorem C20_dmx_address_clamp_witness :
    (readDipSwitch cfg0 { dmxData := fun _ => 0, readDmxAddr := 0, readFunctionDip := 0 }
      (stateOf 0 0 0)).dmxAddr = 1 ∧
    (readDipSwitch cfg0 { dmxData := fun _ => 0, readDmxAddr := 17, readFunctionDip := 0 }
      (stateOf 0 0 0)).dmxAddr = 17 ∧
    (readDipSwitch cfg0 { dmxData := fun _ => 0, readDmxAddr := 511, readFunctionDip := 0 }
      (stateOf 0 0 0)).dmxAddr = 502 :=
  ⟨(C20_dmx_address_clamp cfg0 { dmxData := fun _ => 0, readDmxAddr := 0, readFunctionDip := 0 }
      (stateOf 0 0 0) (by decide) (by decide) (by decide)).2.2.2.1 rfl,
   (C20_dmx_address_clamp cfg0 { dmxData := fun _ => 0, readDmxAddr := 17, readFunctionDip := 0 }
      (stateOf 0 0 0) (by decide) (by decide) (by decide)).2.2.1 (by decide) (by decide),
   (C20_dmx_address_clamp cfg0 { dmxData := fun _ => 0, readDmxAddr := 511, readFunctionDip := 0 }
      (stateOf 0 0 0) (by decide) (by decide) (by decide)).2.2.2.2 (by decide)⟩

/-! ## The flash cycle (claim C17) -/

/-- Rounds compose: `a + b` rounds are `a` rounds followed by `b` rounds. -/
theorem mainRounds_add (cfg : Config) (inp : Inputs) (a b : Nat) (s : State) :
    mainRounds cfg inp (a + b) s = mainRounds cfg inp b (mainRounds cfg inp a s) := by
  induction b with
  | zero => rfl
  | succ n ih =>
    show mainRound cfg inp (mainRounds cfg inp (a + n) s) = _
    rw [ih]
    rfl

/-- The strobe variables after one round are those computed by the strobe
logic from the state after the timer tick. -/
theorem mainRound_strobe (cfg : Config) (inp : Inputs) (s : State) :
    (mainRound cfg inp s).timeMs =
      (mainStrobe cfg inp.dmxData (strobeTimerInterrupt s)).timeMs ∧
    (mainRound cfg inp s).strobeOn =
      (mainStrobe cfg inp.dmxData (strobeTimerInterrupt s)).strobeOn ∧
    (mainRound cfg inp s).oldStrobe =
      (mainStrobe cfg inp.dmxData (strobeTimerInterrupt s)).oldStrobe ∧
    (mainRound cfg inp s).masterBrightness =
      (mainStrobe cfg inp.dmxData (strobeTimerInterrupt s)).masterBrightness :=
  mainLoopBody_strobe cfg inp (strobeTimerInterrupt s)

/-- A round in the lit phase that does not reach the on time. -/
theorem mainRound_on_hold (cfg : Config) (inp : Inputs) (s : State)
    (hold : s.oldStrobe ≠ 0) (h1 : inp.dmxData 1 ≠ 0) (hon : s.strobeOn ≠ 0)
    (ht : s.timeMs + 1 < STROBE_ON_TIME_MS) :
    (mainRound cfg inp s).masterBrightness = inp.dmxData 0 ∧
    (mainRound cfg inp s).timeMs = s.timeMs + 1 ∧
    (mainRound cfg inp s).strobeOn = s.strobeOn ∧
    (mainRound cfg inp s).oldStrobe ≠ 0 := by
  have e : (strobeTimerInterrupt s).timeMs = s.timeMs + 1 := by
    show (s.timeMs + 1) % 256 = s.timeMs + 1
    unfold STROBE_ON_TIME_MS at ht
    omega
  obtain ⟨bt, bo, bold, bm⟩ := mainRound_strobe cfg inp s
  obtain ⟨m, t, o, od⟩ := mainStrobe_on_hold cfg inp.dmxData (strobeTimerInterrupt s)
    hold h1 hon (by rw [e]; exact ht)
  rw [bt, bo, bold, bm, m, t, o, od, e]
  exact ⟨rfl, rfl, rfl, h1⟩

/-- A round in the lit phase that reaches the on time. -/
theorem mainRound_on_expire (cfg : Config) (inp : Inputs) (s : State)
    (hold : s.oldStrobe ≠ 0) (h1 : inp.dmxData 1 ≠ 0) (hon : s.strobeOn ≠ 0)
    (ht : s.timeMs + 1 = STROBE_ON_TIME_MS) :
    (mainRound cfg inp s).masterBrightness = 0 ∧
    (mainRound cfg inp s).timeMs = 0 ∧
    (mainRound cfg inp s).strobeOn = 0 ∧
    (mainRound cfg inp s).oldStrobe ≠ 0 := by
  have e : (strobeTimerInterrupt s).timeMs = s.timeMs + 1 := by
    show (s.timeMs + 1) % 256 = s.timeMs + 1
    unfold STROBE_ON_TIME_MS at ht
    omega
  obtain ⟨bt, bo, bold, bm⟩ := mainRound_strobe cfg inp s
  obtain ⟨m, t, o, od⟩ := mainStrobe_on_expire cfg inp.dmxData (strobeTimerInterrupt s)
    hold h1 hon (by rw [e, ht])
  rw [bt, bo, bold, bm, m, t, o, od]
  exact ⟨rfl, rfl, rfl, h1⟩

/-- A round in the dark phase that does not exceed the off time. -/
theorem mainRound_off_hold (cfg : Config) (inp : Inputs) (s : State)
    (hold : s.oldStrobe ≠ 0) (h1 : inp.dmxData 1 ≠ 0) (hoff : s.strobeOn = 0)
    (hT : calcStrobeTimeMs (inp.dmxData 1) < 256)
    (ht : s.timeMs + 1 ≤ calcStrobeTimeMs (inp.dmxData 1)) :
    (mainRound cfg inp s).masterBrightness = 0 ∧
    (mainRound cfg inp s).timeMs = s.timeMs + 1 ∧
    (mainRound cfg inp s).strobeOn = 0 ∧
    (mainRound cfg inp s).oldStrobe ≠ 0 := by
  have e : (strobeTimerInterrupt s).timeMs = s.timeMs + 1 := by
    show (s.timeMs + 1) % 256 = s.timeMs + 1
    omega
  obtain ⟨bt, bo, bold, bm⟩ := mainRound_strobe cfg inp s
  obtain ⟨m, t, o, od⟩ := mainStrobe_off_hold cfg inp.dmxData (strobeTimerInterrupt s)
    hold h1 hoff (by rw [e]; exact ht)
  rw [bt, bo, bold, bm, m, t, o, od, e]
  exact ⟨rfl, rfl, rfl, h1⟩

/-- A round in the dark phase that exceeds the off time. -/
theorem mainRound_off_expire (cfg : Config) (inp : Inputs) (s : State)
    (hold : s.oldStrobe ≠ 0) (h1 : inp.dmxData 1 ≠ 0) (hoff : s.strobeOn = 0)
    (hT : calcStrobeTimeMs (inp.dmxData 1) < 255)
    (ht : s.timeMs = calcStrobeTimeMs (inp.dmxData 1)) :
    (mainRound cfg inp s).masterBrightness = inp.dmxData 0 ∧
    (mainRound cfg inp s).timeMs = 0 ∧
    (mainRound cfg inp s).strobeOn = 1 ∧
    (mainRound cfg inp s).oldStrobe ≠ 0 := by
  have e : (strobeTimerInterrupt s).timeMs = s.timeMs + 1 := by
    show (s.timeMs + 1) % 256 = s.timeMs + 1
    omega
  obtain ⟨bt, bo, bold, bm⟩ := mainRound_strobe cfg inp s
  obtain ⟨m, t, o, od⟩ := mainStrobe_off_expire cfg inp.dmxData (strobeTimerInterrupt s)
    hold h1 hoff (by rw [e]; omega)
  rw [bt, bo, bold, bm, m, t, o, od]
  exact ⟨rfl, rfl, rfl, h1⟩

/-- The lit phase: started ON with the counter at 0 and the strobe active, the
state after `k` rounds, `k` up to 3, is still ON with the counter at `k`. -/
theorem mainRounds_on_phase (cfg : Config) (inp : Inputs) (s : State)
    (hold : s.oldStrobe ≠ 0) (h1 : inp.dmxData 1 ≠ 0) (hon : s.strobeOn ≠ 0)
    (ht : s.timeMs = 0) (k : Nat) (hk : k ≤ 3) :
    (mainRounds cfg inp k s).oldStrobe ≠ 0 ∧
    (mainRounds cfg inp k s).strobeOn = s.strobeOn ∧
    (mainRounds cfg inp k s).timeMs = k ∧
    (1 ≤ k → (mainRounds cfg inp k s).masterBrightness = inp.dmxData 0) := by
  induction k with
  | zero => exact ⟨hold, rfl, ht, fun h => absurd h (by decide)⟩
  | succ n ih =>
    obtain ⟨i1, i2, i3, _⟩ := ih (by omega)
    obtain ⟨m, t, o, od⟩ := mainRound_on_hold cfg inp (mainRounds cfg inp n s) i1 h1
      (by rw [i2]; exact hon) (by rw [i3]; unfold STROBE_ON_TIME_MS; omega)
    rw [i3] at t
    rw [i2] at o
    exact ⟨od, o, t, fun _ => m⟩

/-- The dark phase: started OFF with the counter at 0 and the strobe active,
the state after `j` rounds, `j` up to the off time, is still OFF with the
counter at `j`. -/
theorem mainRounds_off_phase (cfg : Config) (inp : Inputs) (s : State)
    (hold : s.oldStrobe ≠ 0) (h1 : inp.dmxData 1 ≠ 0) (hoff : s.strobeOn = 0)
    (ht : s.timeMs = 0) (hT : calcStrobeTimeMs (inp.dmxData 1) < 256)
    (j : Nat) (hj : j ≤ calcStrobeTimeMs (inp.dmxData 1)) :
    (mainRounds cfg inp j s).oldStrobe ≠ 0 ∧
    (mainRounds cfg inp j s).strobeOn = 0 ∧
    (mainRounds cfg inp j s).timeMs = j ∧
    (1 ≤ j → (mainRounds cfg inp j s).masterBrightness = 0) := by
  induction j with
  | zero => exact ⟨hold, hoff, ht, fun h => absurd h (by decide)⟩
  | succ n ih =>
    obtain ⟨i1, i2, i3, _⟩ := ih (by omega)
    obtain ⟨m, t, o, od⟩ := mainRound_off_hold cfg inp (mainRounds cfg inp n s) i1 h1 i2 hT
      (by rw [i3]; exact hj)
    rw [i3] at t
    exact ⟨od, o, t, fun _ => m⟩

/-- C17. Flash cycle length: one round is one timer tick followed by one pass
of the loop body; the speed byte is constant in 1..255, the master channel is
constant and the strobe is already active.  Started ON with the counter at 0,
the state is ON with the master channel as brightness after rounds 1 to 3
(counter 1 to 3), OFF with brightness 0 and counter 0 after round 4, OFF with
brightness 0 after each of the next `calcStrobeTimeMs speed` rounds (counter
`j` after round `4 + j`), and ON with counter 0 and the master channel as
brightness after round `calcStrobeTimeMs speed + 5`, with the strobe still
active, so that the cycle starts again.  No earlier round ends ON with the
counter at 0, so the period is exactly `calcStrobeTimeMs speed + 5` rounds;
and before every tick of the cycle the counter is below 255, so it never
wraps. -/
theorem C17_flash_cycle (cfg : Config) (inp : Inputs) (s : State)
    (hs1 : 1 ≤ inp.dmxData 1) (hs2 : inp.dmxData 1 ≤ 255)
    (hold : s.oldStrobe ≠ 0) (hon : s.strobeOn ≠ 0) (ht : s.timeMs = 0) :
    (∀ k, 1 ≤ k → k ≤ 3 →
      (mainRounds cfg inp k s).strobeOn ≠ 0 ∧
      (mainRounds cfg inp k s).masterBrightness = inp.dmxData 0 ∧
      (mainRounds cfg inp k s).timeMs = k) ∧
    ((mainRounds cfg inp 4 s).strobeOn = 0 ∧
      (mainRounds cfg inp 4 s).masterBrightness = 0 ∧
      (mainRounds cfg inp 4 s).timeMs = 0) ∧
    (∀ j, 1 ≤ j → j ≤ calcStrobeTimeMs (inp.dmxData 1) →
      (mainRounds cfg inp (4 + j) s).strobeOn = 0 ∧
      (mainRounds cfg inp (4 + j) s).masterBrightness = 0 ∧
      (mainRounds cfg inp (4 + j) s).timeMs = j) ∧
    ((mainRounds cfg inp (calcStrobeTimeMs (inp.dmxData 1) + 5) s).strobeOn = 1 ∧
      (mainRounds cfg inp (calcStrobeTimeMs (inp.dmxData 1) + 5) s).masterBrightness =
        inp.dmxData 0 ∧
      (mainRounds cfg inp (calcStrobeTimeMs (inp.dmxData 1) + 5) s).timeMs = 0 ∧
      (mainRounds cfg inp (calcStrobeTimeMs (inp.dmxData 1) + 5) s).oldStrobe ≠ 0) ∧
    (∀ k, 1 ≤ k → k < calcStrobeTimeMs (inp.dmxData 1) + 5 →
      ¬ ((mainRounds cfg inp k s).strobeOn ≠ 0 ∧ (mainRounds cfg inp k s).timeMs = 0)) ∧
    (∀ k, k < calcStrobeTimeMs (inp.dmxData 1) + 5 →
      (mainRounds cfg inp k s).timeMs + 1 < 256) := by
  have h1 : inp.dmxData 1 ≠ 0 := by omega
  obtain ⟨_, hT⟩ := calcStrobeTimeMs_range (inp.dmxData 1) (by omega)
  have onP := mainRounds_on_phase cfg inp s hold h1 hon ht
  obtain ⟨a1, a2, a3, _⟩ := onP 3 (by decide)
  obtain ⟨m4, t4, o4, od4⟩ := mainRound_on_expire cfg inp (mainRounds cfg inp 3 s) a1 h1
    (by rw [a2]; exact hon) (by rw [a3]; rfl)
  have e4 : mainRounds cfg inp 4 s = mainRound cfg inp (mainRounds cfg inp 3 s) := rfl
  rw [← e4] at m4 t4 o4 od4
  have offP := mainRounds_off_phase cfg inp (mainRounds cfg inp 4 s) od4 h1 o4 t4 (by omega)
  have offQ : ∀ j, j ≤ calcStrobeTimeMs (inp.dmxData 1) →
      (mainRounds cfg inp (4 + j) s).oldStrobe ≠ 0 ∧
      (mainRounds cfg inp (4 + j) s).strobeOn = 0 ∧
      (mainRounds cfg inp (4 + j) s).timeMs = j ∧
      (1 ≤ j → (mainRounds cfg inp (4 + j) s).masterBrightness = 0) := by
    intro j hj
    rw [mainRounds_add]
    exact offP j hj
  obtain ⟨b1, b2, b3, _⟩ := offQ (calcStrobeTimeMs (inp.dmxData 1)) (Nat.le_refl _)
  obtain ⟨m5, t5, o5, od5⟩ := mainRound_off_expire cfg inp
    (mainRounds cfg inp (4 + calcStrobeTimeMs (inp.dmxData 1)) s) b1 h1 b2 (by omega) b3
  have e5 : mainRounds cfg inp (calcStrobeTimeMs (inp.dmxData 1) + 5) s =
      mainRound cfg inp (mainRounds cfg inp (4 + calcStrobeTimeMs (inp.dmxData 1)) s) := by
    rw [show calcStrobeTimeMs (inp.dmxData 1) + 5 =
      (4 + calcStrobeTimeMs (inp.dmxData 1)) + 1 by omega]
    rfl
  rw [← e5] at m5 t5 o5 od5
  refine ⟨?_, ⟨o4, m4, t4⟩, ?_, ⟨o5, m5, t5, od5⟩, ?_, ?_⟩
  · intro k hk1 hk3
    obtain ⟨_, c2, c3, c4⟩ := onP k hk3
    exact ⟨by rw [c2]; exact hon, c4 hk1, c3⟩
  · intro j hj1 hj
    obtain ⟨_, c2, c3, c4⟩ := offQ j hj
    exact ⟨c2, c4 hj1, c3⟩
  · intro k hk1 hk
    rintro ⟨hOn, hZero⟩
    by_cases hk3 : k ≤ 3
    · obtain ⟨_, _, c3, _⟩ := onP k hk3
      omega
    · obtain ⟨_, c2, _, _⟩ := offQ (k - 4) (by omega)
      rw [show 4 + (k - 4) = k by omega] at c2
      exact hOn c2
  · intro k hk
    by_cases hk3 : k ≤ 3
    · obtain ⟨_, _, c3, _⟩ := onP k hk3
      omega
    · obtain ⟨_, _, c3, _⟩ := offQ (k - 4) (by omega)
      rw [show 4 + (k - 4) = k by omega] at c3
      omega

/-- C17 at speed 10 (off time 192) and master brightness 200, started ON with
the counter at 0: ON with brightness 200 after round 3, OFF after round 4,
still OFF after round 196, and ON again with the counter at 0 after round
197. -/
theorem C17_flash_cycle_witness :
    calcStrobeTimeMs 10 + 5 = 197 ∧
    ((mainRounds cfg0 (frameOf 200 10 0) 3 (stateOf 0 10 1)).strobeOn ≠ 0 ∧
      (mainRounds cfg0 (frameOf 200 10 0) 3 (stateOf 0 10 1)).masterBrightness = 200 ∧
      (mainRounds cfg0 (frameOf 200 10 0) 3 (stateOf 0 10 1)).timeMs = 3) ∧
    ((mainRounds cfg0 (frameOf 200 10 0) 4 (stateOf 0 10 1)).strobeOn = 0 ∧
      (mainRounds cfg0 (frameOf 200 10 0) 4 (stateOf 0 10 1)).masterBrightness = 0 ∧
      (mainRounds cfg0 (frameOf 200 10 0) 4 (stateOf 0 10 1)).timeMs = 0) ∧
    ((mainRounds cfg0 (frameOf 200 10 0) (4 + 192) (stateOf 0 10 1)).strobeOn = 0 ∧
      (mainRounds cfg0 (frameOf 200 10 0) (4 + 192) (stateOf 0 10 1)).masterBrightness = 0 ∧
      (mainRounds cfg0 (frameOf 200 10 0) (4 + 192) (stateOf 0 10 1)).timeMs = 192) ∧
    ((mainRounds cfg0 (frameOf 200 10 0) 197 (stateOf 0 10 1)).strobeOn = 1 ∧
      (mainRounds cfg0 (frameOf 200 10 0) 197 (stateOf 0 10 1)).masterBrightness = 200 ∧
      (mainRounds cfg0 (frameOf 200 10 0) 197 (stateOf 0 10 1)).timeMs = 0 ∧
      (mainRounds cfg0 (frameOf 200 10 0) 197 (stateOf 0 10 1)).oldStrobe ≠ 0) :=
  ⟨by decide,
   (C17_flash_cycle cfg0 (frameOf 200 10 0) (stateOf 0 10 1)
      (by decide) (by decide) (by decide) (by decide) rfl).1 3 (by decide) (by decide),
   (C17_flash_cycle cfg0 (frameOf 200 10 0) (stateOf 0 10 1)
      (by decide) (by decide) (by decide) (by decide) rfl).2.1,
   (C17_flash_cycle cfg0 (frameOf 200 10 0) (stateOf 0 10 1)
      (by decide) (by decide) (by decide) (by decide) rfl).2.2.1 192 (by decide) (by decide),
   (C17_flash_cycle cfg0 (frameOf 200 10 0) (stateOf 0 10 1)
      (by decide) (by decide) (by decide) (by decide) rfl).2.2.2.1⟩

end DmxFirmware
